import Mathlib

/-!
Verification of the DNSSEC validation core of the dns_debugger repository.

The development shallowly embeds the code of
`src/dns_debugger/adapters/dns/dig_adapter.py` (the dig-based DNS adapter,
whose DNSSEC walk is textually identical to the dog-based one for everything
the claims touch) together with the data model of
`src/dns_debugger/domain/models/dnssec_info.py` and
`src/dns_debugger/domain/models/dns_record.py` (legacy copy).

Python strings are modelled as `String` (operated on through their `List Char`
data); Python `int` is `Int`; Python exceptions are `Except` values, with each
`try/except` of the source translated to a `match`; the outcome of every
`subprocess.run` invocation is supplied by an oracle environment `DigEnv`
(`.ok stdout` for a completed run, `.error msg` for a raised
`CalledProcessError`/`TimeoutExpired`/… whose message is `msg`).
Wall-clock data (`datetime.now()`, `query_time_ms`, `validation_time_ms`,
`timestamp`) is abstracted to the constant 0 / dropped: no claim mentions it.
CPython's `int(str)` is modelled for ASCII decimal literals with optional
sign and surrounding whitespace (underscore digit grouping is not modelled).
-/

/-! ## Python string primitives -/

/-- Whitespace class of Python `str.strip` / `str.split()` / regex `\s`
(ASCII fragment). -/
def pyIsSpace (c : Char) : Bool :=
  c = ' ' || c = '\t' || c = '\n' || c = '\r' || c = '\x0b' || c = '\x0c'

/-- Python `str.strip()` on the character list. -/
def pyStripList (l : List Char) : List Char :=
  ((l.dropWhile pyIsSpace).reverse.dropWhile pyIsSpace).reverse

/-- Python `str.strip()`. -/
def pyStrip (s : String) : String := ⟨pyStripList s.data⟩

/-- Python `str.rstrip(c)` for a single strip character. -/
def pyRstripChar (c : Char) (l : List Char) : List Char :=
  (l.reverse.dropWhile (· = c)).reverse

/-- Helper of `pySplitChar`: accumulates the current piece (reversed). -/
def splitCharAux (sep : Char) : List Char → List Char → List (List Char)
  | [], acc => [acc.reverse]
  | c :: t, acc =>
    if c = sep then acc.reverse :: splitCharAux sep t []
    else splitCharAux sep t (c :: acc)

/-- Python `str.split(sep)` for a one-character separator
(`"".split(sep) == [""]`, empty pieces kept). -/
def pySplitChar (sep : Char) (l : List Char) : List (List Char) :=
  splitCharAux sep l []

/-- Python `str.split(sep, 1)` for a one-character separator: at most one
split, so the result has one or two pieces. -/
def pySplitOnceChar (sep : Char) : List Char → List (List Char)
  | [] => [[]]
  | c :: t =>
    if c = sep then [[], t]
    else
      match pySplitOnceChar sep t with
      | h :: r => (c :: h) :: r
      | [] => [[c]]

/-- Python `str.split(None, maxsplit)`: split on whitespace runs, leading
whitespace skipped; after `maxsplit` splits the remainder (with its
trailing whitespace) is the final piece; an all-whitespace remainder is
dropped. Structural on `maxsplit`. -/
def pySplitNoneMax : Nat → List Char → List (List Char)
  | m, l =>
    match l.dropWhile pyIsSpace with
    | [] => []
    | c :: t =>
      match m with
      | 0 => [c :: t]
      | m' + 1 =>
        let tok := (c :: t).takeWhile (fun x => !pyIsSpace x)
        let rest := (c :: t).dropWhile (fun x => !pyIsSpace x)
        tok :: pySplitNoneMax m' rest

/-- Python `str.split()` with no limit: `maxsplit` larger than any possible
number of splits. -/
def pySplitNone (l : List Char) : List (List Char) :=
  pySplitNoneMax l.length l

/-- Python `sub in s` (substring containment; the empty string is contained
in everything). -/
def pyIn (sub : List Char) : List Char → Bool
  | [] => sub.isEmpty
  | c :: t => sub.isPrefixOf (c :: t) || pyIn sub t

/-- Python `s.find(sub)` as an index option (`none` for Python's `-1`). -/
def pyFindIdx (sub : List Char) : List Char → Option Nat
  | [] => if sub.isEmpty then some 0 else none
  | c :: t =>
    if sub.isPrefixOf (c :: t) then some 0
    else (pyFindIdx sub t).map (· + 1)

/-- Python `s.startswith(p)`. -/
def pyStartsWith (s p : List Char) : Bool := p.isPrefixOf s

/-- True when every character is an ASCII digit. -/
def allDigits (l : List Char) : Bool := l.all Char.isDigit

/-- Value of a nonempty all-digit list, `none` otherwise. -/
def digitsVal (l : List Char) : Option Nat :=
  if l ≠ [] && allDigits l then
    some (l.foldl (fun acc c => acc * 10 + (c.toNat - '0'.toNat)) 0)
  else none

/-- CPython `int(str)` on an ASCII decimal literal: surrounding whitespace
and an optional single sign are allowed around a nonempty digit run. -/
def pyIntList (l : List Char) : Option Int :=
  match pyStripList l with
  | '-' :: ds => (digitsVal ds).map (fun n => -(n : Int))
  | '+' :: ds => (digitsVal ds).map (fun n => (n : Int))
  | ds => (digitsVal ds).map (fun n => (n : Int))

/-- CPython `int(str)` on a `String`. -/
def pyInt (s : String) : Option Int := pyIntList s.data

/-- Python `sep.join(pieces)` for a one-character separator. -/
def joinChar (sep : Char) : List (List Char) → List Char
  | [] => []
  | [x] => x
  | x :: y :: t => x ++ sep :: joinChar sep (y :: t)

/-- Python `"".join(pieces)`. -/
def joinEmpty : List (List Char) → List Char
  | [] => []
  | x :: t => x ++ joinEmpty t

/-- Python `".".join(strings)` on `String`s. -/
def joinDots (l : List String) : String := ⟨joinChar '.' (l.map String.data)⟩

/-- Python `sep.join(strings)` for a string separator. -/
def joinWith (sep : String) : List String → String
  | [] => ""
  | [x] => x
  | x :: y :: t => x ++ sep ++ joinWith sep (y :: t)

/-- Python `parts[-1]` on a list known to be nonempty, with a default for
the impossible empty case. -/
def pyLastD (l : List (List Char)) : List Char := l.getLastD []

/-! ## Data model (`dnssec_info.py`, `dns_record.py`) -/

/-- `DNSSECStatus` enum. -/
inductive DNSSECStatus where
  | SECURE
  | INSECURE
  | BOGUS
  | INDETERMINATE
deriving DecidableEq, Repr, Inhabited

/-- `DNSSECAlgorithm` enum. -/
inductive DNSSECAlgorithm where
  | RSAMD5
  | DH
  | DSA
  | RSASHA1
  | DSA_NSEC3_SHA1
  | RSASHA1_NSEC3_SHA1
  | RSASHA256
  | RSASHA512
  | ECC_GOST
  | ECDSAP256SHA256
  | ECDSAP384SHA384
  | ED25519
  | ED448
  | UNKNOWN
deriving DecidableEq, Repr, Inhabited

/-- `DigestType` enum. -/
inductive DigestType where
  | SHA1
  | SHA256
  | GOST
  | SHA384
  | UNKNOWN
deriving DecidableEq, Repr, Inhabited

/-- `RecordType` enum (`dns_record.py`); only the value strings matter. -/
inductive RecordType where
  | A | AAAA | CNAME | MX | NS | TXT | SOA | PTR | SRV | CAA
  | DNSKEY | DS | NSEC | NSEC3 | RRSIG
deriving DecidableEq, Repr, Inhabited

/-- The `value` attribute of a `RecordType` member. -/
def RecordType.value : RecordType → String
  | .A => "A" | .AAAA => "AAAA" | .CNAME => "CNAME" | .MX => "MX"
  | .NS => "NS" | .TXT => "TXT" | .SOA => "SOA" | .PTR => "PTR"
  | .SRV => "SRV" | .CAA => "CAA" | .DNSKEY => "DNSKEY" | .DS => "DS"
  | .NSEC => "NSEC" | .NSEC3 => "NSEC3" | .RRSIG => "RRSIG"

/-- `DNSKEYRecord` dataclass. -/
structure DNSKEYRecord where
  flags : Int
  protocol : Int
  algorithm : DNSSECAlgorithm
  key_tag : Int
  public_key : String
  ttl : Int
deriving DecidableEq, Repr, Inhabited

/-- `DNSKEYRecord.is_key_signing_key`. -/
def DNSKEYRecord.is_key_signing_key (k : DNSKEYRecord) : Bool :=
  k.flags = 257

/-- `DNSKEYRecord.is_zone_signing_key`. -/
def DNSKEYRecord.is_zone_signing_key (k : DNSKEYRecord) : Bool :=
  k.flags = 256

/-- `DSRecord` dataclass. -/
structure DSRecord where
  key_tag : Int
  algorithm : DNSSECAlgorithm
  digest_type : DigestType
  digest : String
  ttl : Int
deriving DecidableEq, Repr, Inhabited

/-- `RRSIGRecord` dataclass (timestamps as integers; the time-dependent
derived properties are not needed by any claim). -/
structure RRSIGRecord where
  type_covered : String
  algorithm : DNSSECAlgorithm
  labels : Int
  original_ttl : Int
  signature_expiration : Int
  signature_inception : Int
  key_tag : Int
  signer_name : String
  signature : String
  ttl : Int
deriving DecidableEq, Repr, Inhabited

/-- Modelled from the spec: `ZoneData` is used by both DNS adapters and by
`app.py` but its class definition is absent from the source tree; spec §3
gives its fields: `zone_name`, `dnskey_records`, `ds_records` (DS records
this zone holds for its child), `rrsig_records`. -/
structure ZoneData where
  zone_name : String
  dnskey_records : List DNSKEYRecord
  ds_records : List DSRecord
  rrsig_records : List RRSIGRecord
deriving DecidableEq, Repr, Inhabited

/-- `DNSSECChain` dataclass. The `parent_zones` field is modelled from the
spec (§3: `parent_zones: []ZoneData` ordered root-first): the copy of
`dnssec_info.py` in the tree lacks it although both adapters construct the
chain with `parent_zones=...`. -/
structure DNSSECChain where
  domain : String
  has_ds_record : Bool
  has_dnskey_record : Bool
  has_rrsig_record : Bool
  ds_records : List DSRecord
  dnskey_records : List DNSKEYRecord
  rrsig_records : List RRSIGRecord
  parent_zones : List ZoneData
deriving DecidableEq, Repr, Inhabited

/-- `DNSSECChain.is_signed`. -/
def DNSSECChain.is_signed (c : DNSSECChain) : Bool :=
  c.has_dnskey_record && c.has_rrsig_record

/-- `DNSSECChain.has_chain_of_trust`. -/
def DNSSECChain.has_chain_of_trust (c : DNSSECChain) : Bool :=
  c.has_ds_record && c.is_signed

/-- `DNSSECChain.ksk_count`: `sum(1 for key in dnskey_records if
key.is_key_signing_key)`. -/
def DNSSECChain.ksk_count (c : DNSSECChain) : Nat :=
  c.dnskey_records.countP (fun k => k.is_key_signing_key)

/-- `DNSSECChain.zsk_count`. -/
def DNSSECChain.zsk_count (c : DNSSECChain) : Nat :=
  c.dnskey_records.countP (fun k => k.is_zone_signing_key)

/-- `DNSSECValidation` dataclass (`timestamp` dropped, `validation_time_ms`
abstracted to 0; `warnings=None` is normalised to `[]` by `__post_init__`,
modelled by the field being a plain list). `raw_data` is modelled as its
only used entry, the `"raw_output"` string. -/
structure DNSSECValidation where
  domain : String
  status : DNSSECStatus
  validation_time_ms : Nat
  chain : Option DNSSECChain
  error_message : Option String
  warnings : List String
  raw_data : Option String
deriving DecidableEq, Repr, Inhabited

/-- `DNSQuery` dataclass. Its `__post_init__` raises
`ValueError("Domain cannot be empty")` for an empty domain; that raise is
modelled at the construction site in `DigAdapter.query`. -/
structure DNSQuery where
  domain : String
  record_type : RecordType
  resolver : Option String
  dnssec : Bool
deriving DecidableEq, Repr, Inhabited

/-- `DNSRecord` dataclass. -/
structure DNSRecord where
  name : String
  record_type : RecordType
  value : String
  ttl : Int
  record_class : String
deriving DecidableEq, Repr, Inhabited

/-- `DNSResponse` dataclass (`timestamp` dropped, `query_time_ms` abstracted
to 0; `raw_data` modelled as its only entry `"raw_output"`). -/
structure DNSResponse where
  query : DNSQuery
  records : List DNSRecord
  query_time_ms : Nat
  resolver_used : String
  has_dnssec : Bool
  error : Option String
  raw_data : Option String
deriving DecidableEq, Repr, Inhabited

/-- `DNSResponse.is_success`. -/
def DNSResponse.is_success (r : DNSResponse) : Bool := r.error.isNone

/-- `DNSResponse.record_count`. -/
def DNSResponse.record_count (r : DNSResponse) : Nat := r.records.length

/-! ## The dig adapter (`dig_adapter.py`), DNSSEC-relevant methods

`DigEnv.run` is the oracle for `subprocess.run(cmd, ...)`: `.ok stdout` for a
completed invocation, `.error msg` for one that raised. -/

/-- Oracle environment standing for the subprocess layer. -/
structure DigEnv where
  run : List String → Except String String

namespace DigAdapter

/-- `DigAdapter._parse_algorithm`. -/
def parse_algorithm (n : Int) : DNSSECAlgorithm :=
  match n with
  | 1 => .RSAMD5
  | 2 => .DH
  | 3 => .DSA
  | 5 => .RSASHA1
  | 6 => .DSA_NSEC3_SHA1
  | 7 => .RSASHA1_NSEC3_SHA1
  | 8 => .RSASHA256
  | 10 => .RSASHA512
  | 12 => .ECC_GOST
  | 13 => .ECDSAP256SHA256
  | 14 => .ECDSAP384SHA384
  | 15 => .ED25519
  | 16 => .ED448
  | _ => .UNKNOWN

/-- `DigAdapter._parse_digest_type`. -/
def parse_digest_type (n : Int) : DigestType :=
  match n with
  | 1 => .SHA1
  | 2 => .SHA256
  | 3 => .GOST
  | 4 => .SHA384
  | _ => .UNKNOWN

/-- `DigAdapter._calculate_key_tag`: the simplified
`(flags + protocol + algorithm) % 65536` (Python `%` on a positive modulus
is `Int.emod`). -/
def calculate_key_tag (flags protocol algorithm : Int) : Int :=
  (flags + protocol + algorithm) % 65536

/-- One line of `DigAdapter._parse_dig_output`: `None` means the line is
skipped, `.error` means the `int(ttl)` call raised `ValueError` (which
aborts the whole parse and is caught in `query`). -/
def parseDigLine (rt : RecordType) (line : List Char) :
    Except String (Option DNSRecord) :=
  if line = [] || pyStartsWith line ";".data then .ok none
  else
    match pySplitNoneMax 4 line with
    | [name, ttl, record_class, _rtype, value] =>
      match pyIntList ttl with
      | none => .error "invalid literal for int"
      | some t =>
        .ok (some { name := ⟨pyRstripChar '.' name⟩
                    record_type := rt
                    value := ⟨pyStripList value⟩
                    ttl := t
                    record_class := ⟨record_class⟩ })
    | _ => .ok none

/-- `DigAdapter._parse_dig_output`: parse each line of
`output.strip().split("\n")`; short lines and comment lines are skipped, a
non-numeric TTL raises out of the whole loop. -/
def parse_dig_output (output : String) (rt : RecordType) :
    Except String (List DNSRecord) :=
  go (pySplitChar '\n' (pyStripList output.data))
where
  /-- Sequential loop body of `_parse_dig_output`. -/
  go : List (List Char) → Except String (List DNSRecord)
    | [] => .ok []
    | line :: rest => do
      let r ← parseDigLine rt line
      let rs ← go rest
      pure (r.toList ++ rs)

/-- `DigAdapter.query` (the `resolver=None` form used by `validate_dnssec`).
Constructing `DNSQuery` raises `ValueError` for an empty domain before the
`try` block, so that error propagates; every error of the subprocess or of
output parsing is caught and folded into `DNSResponse.error`. -/
def query (env : DigEnv) (domain : String) (rt : RecordType) :
    Except String DNSResponse :=
  if domain = "" then .error "Domain cannot be empty"
  else
    let q : DNSQuery :=
      { domain := domain, record_type := rt, resolver := none, dnssec := false }
    .ok <|
      match env.run ["dig", "+noall", "+answer", domain, rt.value] with
      | .ok out =>
        match parse_dig_output out rt with
        | .ok recs =>
          { query := q, records := recs, query_time_ms := 0
            resolver_used := "system", has_dnssec := false
            error := none, raw_data := some out }
        | .error e =>
          { query := q, records := [], query_time_ms := 0
            resolver_used := "system", has_dnssec := false
            error := some ("Unexpected error: " ++ e), raw_data := none }
      | .error e =>
        { query := q, records := [], query_time_ms := 0
          resolver_used := "system", has_dnssec := false
          error := some ("Query failed: " ++ e), raw_data := none }

/-- Inner `while` of `query_dnskey_with_keytag`: starting after a `(` line,
collect the stripped continuation lines up to (excluding) the first line
containing `)`; returns the collected parts and, when a closing line
exists, that line with the lines after it. -/
def scanClose : List (List Char) → List (List Char) × Option (List Char × List (List Char))
  | [] => ([], none)
  | l :: t =>
    if pyIn ")".data l then ([], some (l, t))
    else
      let (c, r) := scanClose t
      (pyStripList l :: c, r)

/-- The regex `key\s+(?:id|tag)\s*=\s*(\d+)` matched at the head of the
text: returns the captured digit run. -/
def reKeyTagAt (l : List Char) : Option (List Char) :=
  match l with
  | 'k' :: 'e' :: 'y' :: r =>
    if (r.takeWhile pyIsSpace).isEmpty then none
    else
      let r1 := r.dropWhile pyIsSpace
      let r2? : Option (List Char) :=
        if ['i', 'd'].isPrefixOf r1 then some (r1.drop 2)
        else if ['t', 'a', 'g'].isPrefixOf r1 then some (r1.drop 3)
        else none
      match r2? with
      | none => none
      | some r2 =>
        match r2.dropWhile pyIsSpace with
        | '=' :: r4 =>
          let ds := (r4.dropWhile pyIsSpace).takeWhile Char.isDigit
          if ds.isEmpty then none else some ds
        | _ => none
  | _ => none

/-- `re.search` for the key-tag regex: first position at which it matches. -/
def reSearchKeyTag : List Char → Option (List Char)
  | [] => none
  | c :: t =>
    match reKeyTagAt (c :: t) with
    | some ds => some ds
    | none => reSearchKeyTag t

/-- The `key_tag = None; if "key id" in comment or "key tag" in comment: ...`
block applied to the comment text after `)`. -/
def commentKeyTag (comment : List Char) : Option Int :=
  if pyIn "key id".data comment || pyIn "key tag".data comment then
    (reSearchKeyTag comment).map (fun ds => (digitsToNatVal ds : Int))
  else none
where
  /-- Value of the digit run captured by the regex. -/
  digitsToNatVal (ds : List Char) : Nat :=
    ds.foldl (fun acc c => acc * 10 + (c.toNat - '0'.toNat)) 0

/-- Comment key tag carried by a line when read as the closing line of a
parenthesised DNSKEY block: `split(")", 1)[1]` fed to the comment check.
`none` for lines without `)` (the source never reads a comment there). -/
def lineKeyTag (l : List Char) : Option Int :=
  if pyIn ")".data l then
    commentKeyTag ((pySplitOnceChar ')' l).getD 1 [])
  else none

/-- Python slice `s[k:]` (negative start counts from the end). -/
def pySliceFrom (k : Int) (l : List Char) : List Char :=
  if k < 0 then l.drop (((l.length : Int) + k).toNat) else l.drop k.toNat

/-- The `while i < len(lines)` loop of `query_dnskey_with_keytag`.
`kt` is the state of the Python local variable `key_tag` across loop
iterations: `none` = not yet bound (reading it raises `NameError`),
`some v` = bound to `v` (`v = none` is Python `None`).  Because the
`if key_tag is None: key_tag = (flags + protocol + algorithm) % 65536`
fallback runs before every `append`, at the end of each record-producing
iteration the local holds that record's final numeric tag — whether it
came from a comment or from the formula — and that is what an
unterminated-`(` record later reuses.  `.error ()` is an exception inside
the `try` (a failed `int(...)` or the `NameError`), which the caller turns
into `([], "")`.  `fuel` only bounds the recursion; the caller passes
enough for the loop to run to completion. -/
def qdkGo : Nat → List (List Char) → Option (Option Int) → List DNSKEYRecord →
    Except Unit (List DNSKEYRecord)
  | 0, _, _, acc => .ok acc
  | _ + 1, [], _, acc => .ok acc
  | fuel + 1, line0 :: rest, kt, acc =>
    let line := pyStripList line0
    if pyIn "DNSKEY".data line && !pyStartsWith line ";".data
        && !pyIn "RRSIG".data line then
      let parts := pySplitNone line
      if 7 ≤ parts.length then
        match pyIntList (parts.getD 1 []), pyIntList (parts.getD 4 []),
            pyIntList (parts.getD 5 []), pyIntList (parts.getD 6 []) with
        | some ttl, some flags, some protocol, some algorithm =>
          if pyIn "(".data line then
            match scanClose rest with
            | (collected, some (stopLine, rest')) =>
              let lastLine := pyStripList ((pySplitOnceChar ')' stopLine).getD 0 [])
              let pkParts := collected ++ (if lastLine ≠ [] then [lastLine] else [])
              let kt1 := commentKeyTag ((pySplitOnceChar ')' stopLine).getD 1 [])
              let tag := kt1.getD (calculate_key_tag flags protocol algorithm)
              let r : DNSKEYRecord :=
                { flags := flags, protocol := protocol
                  algorithm := parse_algorithm algorithm
                  key_tag := tag
                  public_key := ⟨joinEmpty pkParts⟩, ttl := ttl }
              qdkGo fuel rest' (some (some tag)) (acc ++ [r])
            | (collected, none) =>
              match kt with
              | none => .error ()
              | some ktv =>
                let tag := ktv.getD (calculate_key_tag flags protocol algorithm)
                let r : DNSKEYRecord :=
                  { flags := flags, protocol := protocol
                    algorithm := parse_algorithm algorithm
                    key_tag := tag
                    public_key := ⟨joinEmpty collected⟩, ttl := ttl }
                qdkGo fuel [] (some (some tag)) (acc ++ [r])
          else
            let keyStart : Int :=
              ((pyFindIdx (toString algorithm).data line).elim (-1 : Int)
                  (fun n => (n : Int))) +
                ((toString algorithm).data.length : Int)
            let tag := calculate_key_tag flags protocol algorithm
            let r : DNSKEYRecord :=
              { flags := flags, protocol := protocol
                algorithm := parse_algorithm algorithm
                key_tag := tag
                public_key := ⟨pyStripList (pySliceFrom keyStart line)⟩
                ttl := ttl }
            qdkGo fuel rest (some (some tag)) (acc ++ [r])
        | _, _, _, _ => .error ()
      else qdkGo fuel rest kt acc
    else qdkGo fuel rest kt acc

/-- The whole parsing block of `query_dnskey_with_keytag` applied to the
tool's stdout. -/
def qdkParse (out : String) : Except Unit (List DNSKEYRecord) :=
  let lines := pySplitChar '\n' out.data
  qdkGo (lines.length + 1) lines none []

/-- Records extracted from a `dig ... DNSKEY +dnssec +multi` output (empty
when the in-`try` parsing raised). -/
def qdkRecords (out : String) : List DNSKEYRecord :=
  match qdkParse out with
  | .ok recs => recs
  | .error _ => []

/-- `DigAdapter.query_dnskey_with_keytag`: every exception inside the `try`
(including a failed subprocess) gives `([], "")`. -/
def query_dnskey_with_keytag (env : DigEnv) (domain : String) :
    List DNSKEYRecord × String :=
  match env.run ["dig", domain, "DNSKEY", "+dnssec", "+multi"] with
  | .error _ => ([], "")
  | .ok out =>
    match qdkParse out with
    | .ok recs => (recs, out)
    | .error _ => ([], "")

/-- One record of `DigAdapter._parse_ds_records`: `None` when the RDATA has
other than 4 whitespace fields or a numeric field fails to parse (the
`except (ValueError, IndexError): continue`). -/
def parseDsValue (r : DNSRecord) : Option DSRecord :=
  match pySplitNoneMax 3 r.value.data with
  | [a, b, c, d] =>
    match pyIntList a, pyIntList b, pyIntList c with
    | some key_tag, some alg, some dt =>
      some { key_tag := key_tag, algorithm := parse_algorithm alg
             digest_type := parse_digest_type dt, digest := ⟨d⟩, ttl := r.ttl }
    | _, _, _ => none
  | _ => none

/-- `DigAdapter._parse_ds_records`. -/
def parse_ds_records (resp : DNSResponse) : List DSRecord :=
  resp.records.filterMap parseDsValue

/-- One record of `DigAdapter._parse_dnskey_records` (key tag from
`_calculate_key_tag`). -/
def parseDnskeyValue (r : DNSRecord) : Option DNSKEYRecord :=
  match pySplitNoneMax 3 r.value.data with
  | [a, b, c, d] =>
    match pyIntList a, pyIntList b, pyIntList c with
    | some flags, some protocol, some alg =>
      some { flags := flags, protocol := protocol
             algorithm := parse_algorithm alg
             key_tag := calculate_key_tag flags protocol alg
             public_key := ⟨d⟩, ttl := r.ttl }
    | _, _, _ => none
  | _ => none

/-- `DigAdapter._parse_dnskey_records`. -/
def parse_dnskey_records (resp : DNSResponse) : List DNSKEYRecord :=
  resp.records.filterMap parseDnskeyValue

end DigAdapter

namespace DigAdapter

/-- The RRSIG-presence block of `validate_dnssec`: get the nameservers with
`dig +short domain NS`, query the first one for the domain's A record with
`+dnssec`, and look for the substring `"RRSIG"` in the output; any
exception gives `has_rrsig = False` (and leaves `dnssec_output` empty).
Returns `(has_rrsig, dnssec_output)`. -/
def rrsigCheck (env : DigEnv) (domain : String) : Bool × String :=
  match env.run ["dig", "+short", domain, "NS"] with
  | .error _ => (false, "")
  | .ok nsOut =>
    let nameservers :=
      (pySplitChar '\n' (pyStripList nsOut.data)).filterMap
        (fun ns =>
          if pyStripList ns = [] then none
          else some (pyRstripChar '.' (pyStripList ns)))
    match nameservers with
    | [] => (false, "")
    | auth :: _ =>
      match env.run
          ["dig", ⟨'@' :: auth⟩, "+dnssec", "+noall", "+answer", domain, "A"] with
      | .error _ => (false, "")
      | .ok out => (pyIn "RRSIG".data out.data, out)

/-- The root-zone block of `validate_dnssec`: root DNSKEY set plus the DS
records of the top-level label, wrapped in `try/except: pass`.  The only
raise inside the `try` is `query` on an empty TLD (the `DNSQuery`
validation), which happens exactly when the dot-stripped domain is empty. -/
def rootZoneOf (env : DigEnv) (parts : List (List Char)) : Option ZoneData :=
  let rootKeys := (query_dnskey_with_keytag env ".").1
  let tld : String := ⟨pyLastD parts⟩
  match query env tld .DS with
  | .error _ => none
  | .ok resp =>
    some { zone_name := "."
           dnskey_records := rootKeys
           ds_records := parse_ds_records resp
           rrsig_records := [] }

/-- One iteration of the `for i in range(len(parts) - 1, 0, -1)` loop:
the zone `".".join(parts[i:])` with the DS records of its child
`".".join(parts[i-1:])`, wrapped in `try/except: pass`. -/
def levelZone (env : DigEnv) (parts : List (List Char)) (i : Nat) :
    Option ZoneData :=
  let current : String := ⟨joinChar '.' (parts.drop i)⟩
  let child : String := ⟨joinChar '.' (parts.drop (i - 1))⟩
  let zoneKeys := (query_dnskey_with_keytag env current).1
  match query env child .DS with
  | .error _ => none
  | .ok resp =>
    some { zone_name := current
           dnskey_records := zoneKeys
           ds_records := parse_ds_records resp
           rrsig_records := [] }

/-- The whole descending loop: `i` runs from `len(parts) - 1` down to 1;
a level whose body raised is skipped (`except Exception: pass`). -/
def buildLevels (env : DigEnv) (parts : List (List Char)) : Nat → List ZoneData
  | 0 => []
  | i + 1 => (levelZone env parts (i + 1)).toList ++ buildLevels env parts i

/-- The `parent_zones` list assembled by `validate_dnssec`: the root zone
(when its block did not raise) followed by the loop levels. -/
def parentZonesOf (env : DigEnv) (domain : String) : List ZoneData :=
  let parts := pySplitChar '.' (pyRstripChar '.' domain.data)
  (rootZoneOf env parts).toList ++ buildLevels env parts (parts.length - 1)

/-- `has_ds = ds_response.is_success and ds_response.record_count > 0`. -/
def hasDsOf (dsResp : DNSResponse) : Bool :=
  dsResp.is_success && decide (0 < dsResp.record_count)

/-- `has_dnskey = len(dnskey_records) > 0` for the target's
`query_dnskey_with_keytag` result. -/
def hasDnskeyOf (env : DigEnv) (domain : String) : Bool :=
  decide (0 < (query_dnskey_with_keytag env domain).1.length)

/-- The `DNSSECChain` constructed by `validate_dnssec` (the target's
`rrsig_records` list is always left empty by the source). -/
def chainOf (env : DigEnv) (domain : String) (dsResp : DNSResponse) :
    DNSSECChain :=
  { domain := domain
    has_ds_record := hasDsOf dsResp
    has_dnskey_record := hasDnskeyOf env domain
    has_rrsig_record := (rrsigCheck env domain).1
    ds_records := parse_ds_records dsResp
    dnskey_records := (query_dnskey_with_keytag env domain).1
    rrsig_records := []
    parent_zones := parentZonesOf env domain }

/-- The status cascade of `validate_dnssec`, verbatim:
`if not has_dnskey / elif has_dnskey and has_ds / elif has_dnskey and not
has_ds / else`. -/
def classify (has_dnskey has_ds : Bool) : DNSSECStatus :=
  if !has_dnskey then .INSECURE
  else if has_dnskey && has_ds then .SECURE
  else if has_dnskey && !has_ds then .INDETERMINATE
  else .INDETERMINATE

/-- The three `warnings.append(...)` conditionals of `validate_dnssec`, in
source order (note: the source strings carry no trailing period). -/
def mkWarnings (has_dnskey has_ds : Bool) (chain : DNSSECChain) : List String :=
  (if has_dnskey && !has_ds then
    ["Domain has DNSKEY but no DS record in parent zone"] else []) ++
  (if decide (chain.ksk_count = 0) && has_dnskey then
    ["No Key Signing Key (KSK) found"] else []) ++
  (if decide (chain.zsk_count = 0) && has_dnskey then
    ["No Zone Signing Key (ZSK) found"] else [])

/-- The warnings of a `validate_dnssec` run. -/
def warningsOf (env : DigEnv) (domain : String) (dsResp : DNSResponse) :
    List String :=
  mkWarnings (hasDnskeyOf env domain) (hasDsOf dsResp) (chainOf env domain dsResp)

/-- The raw-output collection at the end of the `try` block. -/
def rawCollect (dsResp : DNSResponse) (dnskeyRaw dnssecOutput : String) :
    Option String :=
  let ro :=
    (match dsResp.raw_data with
     | some s => ["# DS Records\n" ++ s]
     | none => []) ++
    (if dnskeyRaw ≠ "" then ["# DNSKEY Records\n" ++ dnskeyRaw] else []) ++
    (if dnssecOutput ≠ "" then ["# DNSSEC Validation\n" ++ dnssecOutput] else [])
  if ro = [] then none else some (joinWith "\n\n" ro)

/-- The successful path of `validate_dnssec` once the target DS query has
returned: everything after it inside the `try` block handles its own
exceptions, so this is a total function of the oracle. -/
def validateCore (env : DigEnv) (domain : String) (dsResp : DNSResponse) :
    DNSSECValidation :=
  { domain := domain
    status := classify (hasDnskeyOf env domain) (hasDsOf dsResp)
    validation_time_ms := 0
    chain := some (chainOf env domain dsResp)
    error_message := none
    warnings := warningsOf env domain dsResp
    raw_data := rawCollect dsResp (query_dnskey_with_keytag env domain).2
      (rrsigCheck env domain).2 }

/-- The `try` block of `validate_dnssec`.  Its only uncaught raise is the
`ValueError` from constructing `DNSQuery` with an empty domain in the
initial `self.query(domain, RecordType.DS)`: every other statement of the
block catches its own exceptions. -/
def tryBody (env : DigEnv) (domain : String) : Except String DNSSECValidation :=
  (query env domain .DS).map (validateCore env domain)

/-- `DigAdapter.validate_dnssec`: the `try` block, with the
`except Exception as e` fallback producing the INDETERMINATE result with
an error message and no chain.  Totality of this function is the model of
"never propagates an exception past its public boundary". -/
def validate_dnssec (env : DigEnv) (domain : String) : DNSSECValidation :=
  match tryBody env domain with
  | .ok v => v
  | .error e =>
    { domain := domain
      status := .INDETERMINATE
      validation_time_ms := 0
      chain := none
      error_message := some ("DNSSEC validation failed: " ++ e)
      warnings := []
      raw_data := none }

end DigAdapter

/-! ## Concrete oracle environments used as witnesses and counterexamples -/

/-- Oracle on which every subprocess completes with empty output. -/
def envEmptyAll : DigEnv := ⟨fun _ => .ok ""⟩

/-- Oracle for a fully signed target: DS present, one KSK DNSKEY, an
authoritative nameserver whose answer carries an RRSIG. -/
def envSecure : DigEnv := ⟨fun cmd =>
  if cmd = ["dig", "+noall", "+answer", "example.com", "DS"] then
    .ok "example.com. 3600 IN DS 12345 8 2 ABCDEF"
  else if cmd = ["dig", "example.com", "DNSKEY", "+dnssec", "+multi"] then
    .ok "example.com. 300 IN DNSKEY 257 3 8 AAAA"
  else if cmd = ["dig", "+short", "example.com", "NS"] then
    .ok "ns1.example.com."
  else if cmd = ["dig", "@ns1.example.com", "+dnssec", "+noall", "+answer",
      "example.com", "A"] then
    .ok "example.com. 300 IN RRSIG A 8 2 300 20260101 20250101 12345 example.com. abc"
  else .ok ""⟩

/-- Oracle with DNSKEY and DS for the target but no RRSIG anywhere. -/
def envDsNoRrsig : DigEnv := ⟨fun cmd =>
  if cmd = ["dig", "+noall", "+answer", "example.com", "DS"] then
    .ok "example.com. 3600 IN DS 12345 8 2 ABCDEF"
  else if cmd = ["dig", "example.com", "DNSKEY", "+dnssec", "+multi"] then
    .ok "example.com. 300 IN DNSKEY 257 3 8 AAAA"
  else .ok ""⟩

/-- Oracle with one KSK and one ZSK DNSKEY for the target and no DS. -/
def envKeysNoDs : DigEnv := ⟨fun cmd =>
  if cmd = ["dig", "example.com", "DNSKEY", "+dnssec", "+multi"] then
    .ok "example.com. 300 IN DNSKEY 257 3 8 AAAA\nexample.com. 300 IN DNSKEY 256 3 8 BBBB"
  else .ok ""⟩

/-- Oracle whose target DS query completes with one answer line whose RDATA
has a non-numeric key tag (so the raw response has a record but nothing
parses), and a normal DNSKEY. -/
def envDsMalformed : DigEnv := ⟨fun cmd =>
  if cmd = ["dig", "+noall", "+answer", "example.com", "DS"] then
    .ok "example.com. 3600 IN DS bogus 8 2 AB"
  else if cmd = ["dig", "example.com", "DNSKEY", "+dnssec", "+multi"] then
    .ok "example.com. 300 IN DNSKEY 257 3 8 AAAA"
  else .ok ""⟩

/-- Oracle whose DNSKEY output carries no `key id`/`key tag` comment at
all: a first single-line DNSKEY record, then a second DNSKEY line whose
`(` block is never closed, so the loop-carried `key_tag` local still holds
the first record's formula value when the second record is appended. -/
def envStale : DigEnv := ⟨fun cmd =>
  if cmd = ["dig", "example.com", "DNSKEY", "+dnssec", "+multi"] then
    .ok "a. 300 IN DNSKEY 257 3 8 AAAA\nb. 300 IN DNSKEY 256 3 8 ( y"
  else .ok ""⟩

/-! ## Helper lemmas -/

/-- A run of `validate_dnssec` that produced a chain went through the `try`
block: the target DS query returned, the result is `validateCore`, and the
chain is `chainOf`. -/
lemma validate_chain_cases (env : DigEnv) (domain : String) (c : DNSSECChain)
    (hc : (DigAdapter.validate_dnssec env domain).chain = some c) :
    ∃ resp, DigAdapter.query env domain RecordType.DS = .ok resp ∧
      DigAdapter.validate_dnssec env domain = DigAdapter.validateCore env domain resp ∧
      c = DigAdapter.chainOf env domain resp := by
  cases hq : DigAdapter.query env domain RecordType.DS with
  | error e =>
    exfalso
    unfold DigAdapter.validate_dnssec DigAdapter.tryBody at hc
    rw [hq] at hc
    simp [Except.map] at hc
  | ok resp =>
    have hv : DigAdapter.validate_dnssec env domain =
        DigAdapter.validateCore env domain resp := by
      unfold DigAdapter.validate_dnssec DigAdapter.tryBody
      rw [hq]
      rfl
    refine ⟨resp, rfl, hv, ?_⟩
    rw [hv] at hc
    have h' : some (DigAdapter.chainOf env domain resp) = some c := hc
    exact (Option.some.inj h').symm

/-! ## C2 -/

/-- C2: for every domain whose chain is built without an exception, if
`has_dnskey_record`, `has_ds_record` and `has_rrsig_record` are all true
then the status is SECURE. -/
theorem dnskey_ds_rrsig_secure (env : DigEnv) (domain : String) (c : DNSSECChain)
    (hc : (DigAdapter.validate_dnssec env domain).chain = some c)
    (hk : c.has_dnskey_record = true) (hd : c.has_ds_record = true)
    (_hr : c.has_rrsig_record = true) :
    (DigAdapter.validate_dnssec env domain).status = DNSSECStatus.SECURE := by
  obtain ⟨resp, _, hv, hcEq⟩ := validate_chain_cases env domain c hc
  subst hcEq
  rw [hv]
  have hk' : DigAdapter.hasDnskeyOf env domain = true := hk
  have hd' : DigAdapter.hasDsOf resp = true := hd
  show DigAdapter.classify (DigAdapter.hasDnskeyOf env domain)
      (DigAdapter.hasDsOf resp) = DNSSECStatus.SECURE
  rw [hk', hd']
  rfl

/-- Witness for C2 at `envSecure`. -/
theorem dnskey_ds_rrsig_secure_witness :
    (DigAdapter.validate_dnssec envSecure "example.com").status = DNSSECStatus.SECURE :=
  dnskey_ds_rrsig_secure envSecure "example.com" _ rfl rfl rfl rfl

/-! ## C3 -/

/-- C3: for every domain whose chain is built without an exception, the
status is INSECURE exactly when the chain's `has_dnskey_record` is false,
regardless of DS or RRSIG presence. -/
theorem insecure_iff_no_dnskey (env : DigEnv) (domain : String) (c : DNSSECChain)
    (hc : (DigAdapter.validate_dnssec env domain).chain = some c) :
    ((DigAdapter.validate_dnssec env domain).status = DNSSECStatus.INSECURE) ↔
      c.has_dnskey_record = false := by
  obtain ⟨resp, _, hv, hcEq⟩ := validate_chain_cases env domain c hc
  subst hcEq
  rw [hv]
  show (DigAdapter.classify (DigAdapter.hasDnskeyOf env domain)
      (DigAdapter.hasDsOf resp) = DNSSECStatus.INSECURE) ↔
      DigAdapter.hasDnskeyOf env domain = false
  cases hK : DigAdapter.hasDnskeyOf env domain <;>
    cases hD : DigAdapter.hasDsOf resp <;>
      simp [DigAdapter.classify]

/-- Witness for C3 at `envEmptyAll` (no DNSKEY anywhere). -/
theorem insecure_iff_no_dnskey_witness :
    (DigAdapter.validate_dnssec envEmptyAll "example.com").status = DNSSECStatus.INSECURE :=
  (insecure_iff_no_dnskey envEmptyAll "example.com" _ rfl).mpr rfl

/-! ## C4 -/

/-- C4: any exception raised inside the `try` block of `validate_dnssec` is
caught and turned into an INDETERMINATE result with a non-empty error
message and no chain.  (That `validate_dnssec` always returns a result and
never propagates an exception is the totality of the model function: its
codomain is `DNSSECValidation`, not `Except`.) -/
theorem exception_gives_indeterminate (env : DigEnv) (domain : String) (e : String)
    (h : DigAdapter.tryBody env domain = .error e) :
    (DigAdapter.validate_dnssec env domain).status = DNSSECStatus.INDETERMINATE ∧
    (DigAdapter.validate_dnssec env domain).chain = none ∧
    (DigAdapter.validate_dnssec env domain).error_message =
      some ("DNSSEC validation failed: " ++ e) ∧
    ("DNSSEC validation failed: " ++ e) ≠ "" := by
  unfold DigAdapter.validate_dnssec
  rw [h]
  refine ⟨rfl, rfl, rfl, ?_⟩
  intro hempty
  have hlen := congrArg String.length hempty
  rw [String.length_append] at hlen
  have h26 : ("DNSSEC validation failed: " : String).length = 26 := rfl
  have h0 : ("" : String).length = 0 := rfl
  rw [h26, h0] at hlen
  omega

/-- Witness for C4: the empty domain makes the initial target DS query raise
`ValueError` from the `DNSQuery` validation. -/
theorem exception_gives_indeterminate_witness :
    (DigAdapter.validate_dnssec envEmptyAll "").status = DNSSECStatus.INDETERMINATE ∧
    (DigAdapter.validate_dnssec envEmptyAll "").chain = none :=
  ⟨(exception_gives_indeterminate envEmptyAll "" "Domain cannot be empty" rfl).1,
   (exception_gives_indeterminate envEmptyAll "" "Domain cannot be empty" rfl).2.1⟩

/-! ## C7 -/

/-- KSK and ZSK counts of a record list never exceed its length. -/
lemma ksk_zsk_counts_le (l : List DNSKEYRecord) :
    l.countP (fun k => k.is_key_signing_key) +
      l.countP (fun k => k.is_zone_signing_key) ≤ l.length := by
  induction l with
  | nil => simp
  | cons k t ih =>
    rw [List.countP_cons, List.countP_cons, List.length_cons]
    have hkz : ¬(k.is_key_signing_key = true ∧ k.is_zone_signing_key = true) := by
      simp only [DNSKEYRecord.is_key_signing_key, DNSKEYRecord.is_zone_signing_key,
        decide_eq_true_eq]
      rintro ⟨h1, h2⟩
      omega
    cases hk : k.is_key_signing_key <;> cases hz : k.is_zone_signing_key
    · simp [hk, hz]
      omega
    · simp [hk, hz]
      omega
    · simp [hk, hz]
      omega
    · exact absurd ⟨hk, hz⟩ hkz

/-- C7: `ksk_count` counts exactly the DNSKEY records with flags 257 and
`zsk_count` exactly those with flags 256; no record is counted by both and
the two counts sum to at most the number of DNSKEY records. -/
theorem ksk_zsk_counts (c : DNSSECChain) :
    c.ksk_count = c.dnskey_records.countP (fun k => decide (k.flags = 257)) ∧
    c.zsk_count = c.dnskey_records.countP (fun k => decide (k.flags = 256)) ∧
    c.dnskey_records.countP
      (fun k => decide (k.flags = 257) && decide (k.flags = 256)) = 0 ∧
    c.ksk_count + c.zsk_count ≤ c.dnskey_records.length := by
  refine ⟨rfl, rfl, ?_, ksk_zsk_counts_le c.dnskey_records⟩
  rw [List.countP_eq_zero]
  intro k _
  simp only [Bool.and_eq_true, decide_eq_true_eq]
  rintro ⟨h1, h2⟩
  omega

/-! ## C10 -/

/-- C10: `has_ds_record` comes from the raw DS response (query completed
with at least one answer record), not from the parsed `ds_records`: with a
DS answer whose RDATA does not parse, the chain reports
`has_ds_record = true` with `ds_records = []`, and with a DNSKEY present
the status is SECURE. -/
theorem has_ds_from_raw_response :
    (DigAdapter.validate_dnssec envDsMalformed "example.com").chain.map
        DNSSECChain.has_ds_record = some true ∧
    (DigAdapter.validate_dnssec envDsMalformed "example.com").chain.map
        DNSSECChain.ds_records = some [] ∧
    (DigAdapter.validate_dnssec envDsMalformed "example.com").chain.map
        DNSSECChain.has_dnskey_record = some true ∧
    (DigAdapter.validate_dnssec envDsMalformed "example.com").status =
      DNSSECStatus.SECURE :=
  ⟨rfl, rfl, rfl, rfl⟩

/-! ## C1 -/

/-- C1 counterexample: at `envDsNoRrsig` the chain has DNSKEY and DS but no
RRSIG, yet the status is SECURE (not INDETERMINATE), and
`has_chain_of_trust` is false while the status is SECURE. -/
theorem secure_without_rrsig_example :
    (DigAdapter.validate_dnssec envDsNoRrsig "example.com").chain.map
        DNSSECChain.has_dnskey_record = some true ∧
    (DigAdapter.validate_dnssec envDsNoRrsig "example.com").chain.map
        DNSSECChain.has_ds_record = some true ∧
    (DigAdapter.validate_dnssec envDsNoRrsig "example.com").chain.map
        DNSSECChain.has_rrsig_record = some false ∧
    (DigAdapter.validate_dnssec envDsNoRrsig "example.com").chain.map
        DNSSECChain.has_chain_of_trust = some false ∧
    (DigAdapter.validate_dnssec envDsNoRrsig "example.com").status =
      DNSSECStatus.SECURE ∧
    (DigAdapter.validate_dnssec envDsNoRrsig "example.com").status ≠
      DNSSECStatus.INDETERMINATE :=
  ⟨rfl, rfl, rfl, rfl, rfl, by decide⟩

/-- C1 amended: for every domain whose chain is built without an exception,
the status is SECURE exactly when the chain has DNSKEY and DS records;
RRSIG presence (and hence `has_chain_of_trust`) plays no part in the
status. -/
theorem status_secure_iff_dnskey_and_ds (env : DigEnv) (domain : String)
    (c : DNSSECChain)
    (hc : (DigAdapter.validate_dnssec env domain).chain = some c) :
    ((DigAdapter.validate_dnssec env domain).status = DNSSECStatus.SECURE) ↔
      (c.has_dnskey_record = true ∧ c.has_ds_record = true) := by
  obtain ⟨resp, _, hv, hcEq⟩ := validate_chain_cases env domain c hc
  subst hcEq
  rw [hv]
  show (DigAdapter.classify (DigAdapter.hasDnskeyOf env domain)
      (DigAdapter.hasDsOf resp) = DNSSECStatus.SECURE) ↔
      (DigAdapter.hasDnskeyOf env domain = true ∧ DigAdapter.hasDsOf resp = true)
  cases hK : DigAdapter.hasDnskeyOf env domain <;>
    cases hD : DigAdapter.hasDsOf resp <;>
      simp [DigAdapter.classify]

/-- Witness for the amended C1 at `envDsNoRrsig`. -/
theorem status_secure_iff_dnskey_and_ds_witness :
    (DigAdapter.validate_dnssec envDsNoRrsig "example.com").status =
      DNSSECStatus.SECURE :=
  (status_secure_iff_dnskey_and_ds envDsNoRrsig "example.com" _ rfl).mpr ⟨rfl, rfl⟩

/-! ## C6 -/

/-- Membership table for the three warning strings produced by
`validate_dnssec` (source strings, no trailing period). -/
lemma mkWarnings_spec (hk hd : Bool) (ch : DNSSECChain) :
    (("Domain has DNSKEY but no DS record in parent zone" ∈
        DigAdapter.mkWarnings hk hd ch) ↔ (hk = true ∧ hd = false)) ∧
    (("No Key Signing Key (KSK) found" ∈ DigAdapter.mkWarnings hk hd ch) ↔
      (hk = true ∧ ch.ksk_count = 0)) ∧
    (("No Zone Signing Key (ZSK) found" ∈ DigAdapter.mkWarnings hk hd ch) ↔
      (hk = true ∧ ch.zsk_count = 0)) ∧
    (hk = false → DigAdapter.mkWarnings hk hd ch = []) := by
  cases hk <;> cases hd <;>
    by_cases h1 : ch.ksk_count = 0 <;> by_cases h2 : ch.zsk_count = 0 <;>
      simp [DigAdapter.mkWarnings, h1, h2]

/-- C6 counterexample: the emitted warning lacks the trailing period the
claim quotes; at `envKeysNoDs` (a KSK and a ZSK, no DS) the warnings list
is exactly the period-less DS warning, and the period-carrying string of
the claim is not in it although DNSKEY is present and DS is absent. -/
theorem warning_strings_no_period :
    (DigAdapter.validate_dnssec envKeysNoDs "example.com").warnings =
      ["Domain has DNSKEY but no DS record in parent zone"] ∧
    ("Domain has DNSKEY but no DS record in parent zone." ∉
      (DigAdapter.validate_dnssec envKeysNoDs "example.com").warnings) ∧
    (DigAdapter.validate_dnssec envKeysNoDs "example.com").chain.map
        DNSSECChain.has_dnskey_record = some true ∧
    (DigAdapter.validate_dnssec envKeysNoDs "example.com").chain.map
        DNSSECChain.has_ds_record = some false :=
  ⟨rfl, by decide, rfl, rfl⟩

/-- C6 amended: with the exact source strings (no trailing period), each
warning is present exactly under the claimed condition — the DS warning
iff DNSKEY present and DS absent, the KSK warning iff DNSKEY present and
no key has flags 257, the ZSK warning iff DNSKEY present and no key has
flags 256 — and no warning at all is emitted when the target has no
DNSKEY records. -/
theorem warnings_membership (env : DigEnv) (domain : String) (c : DNSSECChain)
    (hc : (DigAdapter.validate_dnssec env domain).chain = some c) :
    (("Domain has DNSKEY but no DS record in parent zone" ∈
        (DigAdapter.validate_dnssec env domain).warnings) ↔
      (c.has_dnskey_record = true ∧ c.has_ds_record = false)) ∧
    (("No Key Signing Key (KSK) found" ∈
        (DigAdapter.validate_dnssec env domain).warnings) ↔
      (c.has_dnskey_record = true ∧ c.ksk_count = 0)) ∧
    (("No Zone Signing Key (ZSK) found" ∈
        (DigAdapter.validate_dnssec env domain).warnings) ↔
      (c.has_dnskey_record = true ∧ c.zsk_count = 0)) ∧
    (c.has_dnskey_record = false →
      (DigAdapter.validate_dnssec env domain).warnings = []) := by
  obtain ⟨resp, _, hv, hcEq⟩ := validate_chain_cases env domain c hc
  subst hcEq
  rw [hv]
  exact mkWarnings_spec (DigAdapter.hasDnskeyOf env domain)
    (DigAdapter.hasDsOf resp) (DigAdapter.chainOf env domain resp)

/-- Witness for the amended C6 at `envKeysNoDs`. -/
theorem warnings_membership_witness :
    "Domain has DNSKEY but no DS record in parent zone" ∈
      (DigAdapter.validate_dnssec envKeysNoDs "example.com").warnings :=
  ((warnings_membership envKeysNoDs "example.com" _ rfl).1).mpr ⟨rfl, rfl⟩

/-! ## C9 -/

/-- Well-formedness of a DS/DNSKEY RDATA text as the record parsers accept
it: exactly four whitespace fields (`split(None, 3)`) with the first three
parsing as integers. -/
def rdata4WellFormed (v : String) : Bool :=
  match pySplitNoneMax 3 v.data with
  | [a, b, c, _] =>
    (pyIntList a).isSome && (pyIntList b).isSome && (pyIntList c).isSome
  | _ => false

/-- `parseDsValue` succeeds exactly on well-formed RDATA. -/
lemma parseDsValue_isSome (r : DNSRecord) :
    (DigAdapter.parseDsValue r).isSome = rdata4WellFormed r.value := by
  unfold DigAdapter.parseDsValue rdata4WellFormed
  rcases hX : pySplitNoneMax 3 r.value.data with _ | ⟨a, _ | ⟨b, _ | ⟨c, _ | ⟨d, _ | ⟨e, t⟩⟩⟩⟩⟩ <;>
    simp only []
  case cons.cons.cons.cons.nil =>
    cases pyIntList a <;> cases pyIntList b <;> cases pyIntList c <;> simp
  all_goals rfl

/-- `parseDnskeyValue` succeeds exactly on well-formed RDATA. -/
lemma parseDnskeyValue_isSome (r : DNSRecord) :
    (DigAdapter.parseDnskeyValue r).isSome = rdata4WellFormed r.value := by
  unfold DigAdapter.parseDnskeyValue rdata4WellFormed
  rcases hX : pySplitNoneMax 3 r.value.data with _ | ⟨a, _ | ⟨b, _ | ⟨c, _ | ⟨d, _ | ⟨e, t⟩⟩⟩⟩⟩ <;>
    simp only []
  case cons.cons.cons.cons.nil =>
    cases pyIntList a <;> cases pyIntList b <;> cases pyIntList c <;> simp
  all_goals rfl

/-- C9: the DS and DNSKEY record parsers never raise; a record whose RDATA
is malformed (wrong field count or non-numeric numeric field) is skipped
while every sibling record in the same response is still parsed: the parse
of `pre ++ [bad] ++ post` is the parse of `pre` followed by the parse of
`post`. -/
theorem malformed_records_skipped (r : DNSResponse) (pre post : List DNSRecord)
    (bad : DNSRecord) (hrec : r.records = pre ++ bad :: post) :
    ((DigAdapter.parseDsValue bad).isSome = rdata4WellFormed bad.value) ∧
    ((DigAdapter.parseDnskeyValue bad).isSome = rdata4WellFormed bad.value) ∧
    (rdata4WellFormed bad.value = false →
      DigAdapter.parse_ds_records r =
        DigAdapter.parse_ds_records { r with records := pre } ++
          DigAdapter.parse_ds_records { r with records := post } ∧
      DigAdapter.parse_dnskey_records r =
        DigAdapter.parse_dnskey_records { r with records := pre } ++
          DigAdapter.parse_dnskey_records { r with records := post }) := by
  refine ⟨parseDsValue_isSome bad, parseDnskeyValue_isSome bad, fun hbad => ⟨?_, ?_⟩⟩
  · have hnone : DigAdapter.parseDsValue bad = none := by
      have h := parseDsValue_isSome bad
      rw [hbad] at h
      cases hp : DigAdapter.parseDsValue bad with
      | none => rfl
      | some x => rw [hp] at h; simp at h
    unfold DigAdapter.parse_ds_records
    rw [hrec]
    simp [List.filterMap_append, List.filterMap_cons, hnone]
  · have hnone : DigAdapter.parseDnskeyValue bad = none := by
      have h := parseDnskeyValue_isSome bad
      rw [hbad] at h
      cases hp : DigAdapter.parseDnskeyValue bad with
      | none => rfl
      | some x => rw [hp] at h; simp at h
    unfold DigAdapter.parse_dnskey_records
    rw [hrec]
    simp [List.filterMap_append, List.filterMap_cons, hnone]

/-- A well-formed DS sibling record. -/
def dsRecGood1 : DNSRecord :=
  { name := "example.com", record_type := RecordType.DS, value := "1 8 2 AA"
    ttl := 300, record_class := "IN" }

/-- A malformed record: three RDATA fields with a non-numeric first one. -/
def dsRecBad : DNSRecord :=
  { name := "example.com", record_type := RecordType.DS, value := "x 8 2"
    ttl := 300, record_class := "IN" }

/-- Another well-formed DS sibling record. -/
def dsRecGood2 : DNSRecord :=
  { name := "example.com", record_type := RecordType.DS, value := "2 8 2 BB"
    ttl := 300, record_class := "IN" }

/-- A response carrying a malformed record between two well-formed ones. -/
def dsRespMixed : DNSResponse :=
  { query := { domain := "example.com", record_type := RecordType.DS
               resolver := none, dnssec := false }
    records := [dsRecGood1, dsRecBad, dsRecGood2]
    query_time_ms := 0, resolver_used := "system", has_dnssec := false
    error := none, raw_data := none }

/-- Witness for C9 at `dsRespMixed`. -/
theorem malformed_records_skipped_witness :
    DigAdapter.parse_ds_records dsRespMixed =
      DigAdapter.parse_ds_records { dsRespMixed with records := [dsRecGood1] } ++
        DigAdapter.parse_ds_records { dsRespMixed with records := [dsRecGood2] } :=
  ((malformed_records_skipped dsRespMixed [dsRecGood1] [dsRecGood2] dsRecBad
    rfl).2.2 rfl).1

/-! ## C5 -/

/-- Modelled from the spec (§3, §4.2): the expected `zone_name`s of the
parent-zone levels below the root, leaf-last — the entry for `i` levels
above the target (the suffix of `i` labels joined with dots) comes first
for the largest `i` (the top-level label) and last for `i = 1` (the zone
immediately above the target). -/
def specZoneNamesFrom (parts : List (List Char)) : Nat → List String
  | 0 => []
  | i + 1 =>
    (⟨joinChar '.' (parts.drop (i + 1))⟩ : String) :: specZoneNamesFrom parts i

/-- Modelled from the spec (§3, §8): `parent_zones` is ordered root-first —
the root zone `"."` at index 0, then the zones from the top-level label
down to the label immediately above the target. -/
def specParentZoneNames (domain : String) : List String :=
  let parts := pySplitChar '.' (pyRstripChar '.' domain.data)
  "." :: specZoneNamesFrom parts (parts.length - 1)

/-- `splitCharAux` never returns the empty list. -/
lemma splitCharAux_ne_nil (sep : Char) (l acc : List Char) :
    splitCharAux sep l acc ≠ [] := by
  induction l generalizing acc with
  | nil => simp [splitCharAux]
  | cons c t ih =>
    unfold splitCharAux
    by_cases h : c = sep <;> simp [h, ih]

/-- The default of `getLastD` is irrelevant on a nonempty list. -/
lemma getLastD_irrel (xs : List α) (a b : α) (h : xs ≠ []) :
    xs.getLastD a = xs.getLastD b := by
  cases xs with
  | nil => exact absurd rfl h
  | cons x t => rw [List.getLastD_cons, List.getLastD_cons]

/-- If the input does not end with the separator, the last piece of
`splitCharAux` is nonempty. -/
lemma splitCharAux_getLastD_ne_nil (sep : Char) (l acc : List Char)
    (hl : l.getLast? ≠ some sep) (hne : l ≠ []) :
    (splitCharAux sep l acc).getLastD [] ≠ [] := by
  induction l generalizing acc with
  | nil => exact absurd rfl hne
  | cons c t ih =>
    cases t with
    | nil =>
      have hc : c ≠ sep := by
        intro h
        exact hl (by simp [h])
      simp only [splitCharAux, if_neg hc]
      simp [List.getLastD_cons]
    | cons d t' =>
      have hl' : (d :: t').getLast? ≠ some sep := by
        rw [List.getLast?_cons_cons] at hl
        exact hl
      unfold splitCharAux
      by_cases h : c = sep
      · rw [if_pos h, List.getLastD_cons]
        rw [getLastD_irrel _ _ ([] : List Char) (splitCharAux_ne_nil sep (d :: t') [])]
        exact ih [] hl' (by simp)
      · rw [if_neg h]
        exact ih (c :: acc) hl' (by simp)

/-- The head of `dropWhile p` does not satisfy `p`. -/
lemma head?_dropWhile_false (p : α → Bool) (m : List α) (a : α)
    (h : (m.dropWhile p).head? = some a) : p a = false := by
  induction m with
  | nil => simp [List.dropWhile] at h
  | cons x xs ih =>
    rw [List.dropWhile_cons] at h
    by_cases hp : p x
    · rw [if_pos hp] at h
      exact ih h
    · rw [if_neg hp] at h
      simp only [List.head?_cons, Option.some.injEq] at h
      subst h
      exact Bool.of_not_eq_true hp

/-- `rstrip(c)` leaves no trailing `c`. -/
lemma pyRstripChar_getLast?_ne (c : Char) (l : List Char) :
    (pyRstripChar c l).getLast? ≠ some c := by
  unfold pyRstripChar
  rw [List.getLast?_reverse]
  intro h
  have := head?_dropWhile_false (· = c) l.reverse c h
  simp at this

/-- Joining at least two pieces with a separating character is nonempty. -/
lemma joinChar_cons_cons_ne_nil (sep : Char) (a b : List Char) (t : List (List Char)) :
    joinChar sep (a :: b :: t) ≠ [] := by
  simp [joinChar]

/-- Joining two or more pieces is nonempty. -/
lemma joinChar_ne_nil_of_two (sep : Char) (L : List (List Char)) (h : 2 ≤ L.length) :
    joinChar sep L ≠ [] := by
  rcases L with _ | ⟨a, _ | ⟨b, t⟩⟩
  · simp at h
  · simp at h
  · exact joinChar_cons_cons_ne_nil sep a b t

/-- Each level of the descending loop is produced (never skipped): the
child zone name contains a dot, so the DS query for it does not raise. -/
lemma levelZone_some (env : DigEnv) (parts : List (List Char)) (i : Nat)
    (h1 : 1 ≤ i) (h2 : i + 1 ≤ parts.length) :
    ∃ z, DigAdapter.levelZone env parts i = some z ∧
      z.zone_name = (⟨joinChar '.' (parts.drop i)⟩ : String) := by
  have hlen : 2 ≤ (parts.drop (i - 1)).length := by
    rw [List.length_drop]
    omega
  have hchild : (⟨joinChar '.' (parts.drop (i - 1))⟩ : String) ≠ "" := by
    intro h
    exact joinChar_ne_nil_of_two '.' (parts.drop (i - 1)) hlen
      (congrArg String.data h)
  simp only [DigAdapter.levelZone, DigAdapter.query]
  rw [if_neg hchild]
  exact ⟨_, rfl, rfl⟩

/-- The zone names of the descending loop match the spec order. -/
lemma buildLevels_names (env : DigEnv) (parts : List (List Char)) :
    ∀ i, i + 1 ≤ parts.length →
      (DigAdapter.buildLevels env parts i).map ZoneData.zone_name =
        specZoneNamesFrom parts i := by
  intro i
  induction i with
  | zero => intro _; rfl
  | succ n ih =>
    intro h
    obtain ⟨z, hz, hzn⟩ := levelZone_some env parts (n + 1) (by omega) h
    unfold DigAdapter.buildLevels
    rw [hz]
    simp only [Option.toList_some, List.singleton_append, List.map_cons]
    rw [ih (by omega), hzn]
    rfl

/-- The root level is always produced when the dot-stripped domain is
nonempty: the TLD is nonempty so its DS query does not raise. -/
lemma rootZoneOf_some (env : DigEnv) (parts : List (List Char))
    (h : pyLastD parts ≠ []) :
    ∃ z, DigAdapter.rootZoneOf env parts = some z ∧ z.zone_name = "." := by
  have htld : (⟨pyLastD parts⟩ : String) ≠ "" := by
    intro heq
    exact h (congrArg String.data heq)
  simp only [DigAdapter.rootZoneOf, DigAdapter.query]
  rw [if_neg htld]
  exact ⟨_, rfl, rfl⟩

/-- C5: for every domain with at least one label (dot-stripped name
nonempty) whose chain is built, `parent_zones` is exactly root-first: index
0 is the root zone `"."`, followed by the zones from the top-level label
down to the label immediately above the target, in that order, with no
level skipped or reordered — for any oracle behaviour, so in particular
regardless of per-level query failures. -/
theorem parent_zones_root_first (env : DigEnv) (domain : String) (c : DNSSECChain)
    (hc : (DigAdapter.validate_dnssec env domain).chain = some c)
    (hdom : pyRstripChar '.' domain.data ≠ []) :
    c.parent_zones.map ZoneData.zone_name = specParentZoneNames domain := by
  obtain ⟨resp, _, hv, hcEq⟩ := validate_chain_cases env domain c hc
  subst hcEq
  show (DigAdapter.parentZonesOf env domain).map ZoneData.zone_name = _
  have hlast : pyLastD (pySplitChar '.' (pyRstripChar '.' domain.data)) ≠ [] := by
    unfold pyLastD pySplitChar
    exact splitCharAux_getLastD_ne_nil '.' (pyRstripChar '.' domain.data) []
      (pyRstripChar_getLast?_ne '.' domain.data) hdom
  obtain ⟨z, hz, hzn⟩ :=
    rootZoneOf_some env (pySplitChar '.' (pyRstripChar '.' domain.data)) hlast
  have hlen1 : 1 ≤ (pySplitChar '.' (pyRstripChar '.' domain.data)).length := by
    have hne := splitCharAux_ne_nil '.' (pyRstripChar '.' domain.data) []
    cases hL : pySplitChar '.' (pyRstripChar '.' domain.data) with
    | nil => exact absurd hL hne
    | cons x xs => simp
  simp only [DigAdapter.parentZonesOf, specParentZoneNames]
  rw [hz]
  simp only [Option.toList_some, List.singleton_append, List.map_cons]
  rw [hzn, buildLevels_names env (pySplitChar '.' (pyRstripChar '.' domain.data))
    ((pySplitChar '.' (pyRstripChar '.' domain.data)).length - 1) (by omega)]

/-- Witness for C5: at the all-empty oracle the chain of
`www.example.com` has parent zones `"."`, `"com"`, `"example.com"` in that
order. -/
theorem parent_zones_root_first_witness :
    ((DigAdapter.validate_dnssec envEmptyAll "www.example.com").chain.getD
        default).parent_zones.map ZoneData.zone_name =
      [".", "com", "example.com"] :=
  (parent_zones_root_first envEmptyAll "www.example.com"
    ((DigAdapter.validate_dnssec envEmptyAll "www.example.com").chain.getD default)
    rfl (by decide)).trans (by rfl)

/-! ## C8 -/

/-- The key tag of a parsed DNSKEY record agrees with the simplified
formula `(flags + protocol + algorithm) % 65536` for the record's numeric
algorithm. -/
def tagFromFormula (r : DNSKEYRecord) : Prop :=
  ∃ a : Int, r.algorithm = DigAdapter.parse_algorithm a ∧
    r.key_tag = DigAdapter.calculate_key_tag r.flags r.protocol a

/-- C8 counterexample: in `envStale`'s DNSKEY output no `key id`/`key tag`
comment is parsed from any line, yet the second record — whose
parenthesised key block is unterminated — gets the first record's tag
`(257 + 3 + 8) % 65536 = 268` instead of its own formula value
`(256 + 3 + 8) % 65536 = 267`: the Python local `key_tag` still holds the
previous record's final tag. -/
theorem stale_key_tag_example :
    ((DigAdapter.query_dnskey_with_keytag envStale "example.com").1.map
        (fun r => (r.flags, r.protocol, r.key_tag))) =
      [(257, 3, 268), (256, 3, 268)] ∧
    DigAdapter.calculate_key_tag 256 3 8 = 267 ∧ ((268 : Int) ≠ 267) ∧
    ((pySplitChar '\n'
        ("a. 300 IN DNSKEY 257 3 8 AAAA\nb. 300 IN DNSKEY 256 3 8 ( y"
          : String).data).all
      (fun l => (DigAdapter.lineKeyTag l).isNone)) = true :=
  ⟨rfl, rfl, by decide, by decide⟩

/-- Every tuple of list and element: appending one element preserves a
pointwise property. -/
lemma forall_mem_append_singleton {α : Type} {P : α → Prop} (l : List α) (a : α)
    (hl : ∀ x ∈ l, P x) (ha : P a) : ∀ x ∈ l ++ [a], P x := by
  intro x hx
  rcases List.mem_append.mp hx with h | h
  · exact hl x h
  · rw [List.mem_singleton] at h
    subst h
    exact ha

/-- `scanClose` stops at a line of the input that contains `)` and returns
a suffix of the input. -/
lemma scanClose_spec (lines : List (List Char)) :
    ∀ c s r, DigAdapter.scanClose lines = (c, some (s, r)) →
      s ∈ lines ∧ (∀ x ∈ r, x ∈ lines) ∧ pyIn ")".data s = true := by
  induction lines with
  | nil =>
    intro c s r h
    simp [DigAdapter.scanClose] at h
  | cons l t ih =>
    intro c s r h
    unfold DigAdapter.scanClose at h
    split at h
    · next hl =>
      rw [Prod.mk.injEq, Option.some.injEq, Prod.mk.injEq] at h
      obtain ⟨-, hs, hr⟩ := h
      subst hs
      subst hr
      exact ⟨List.mem_cons_self l t, fun x hx => List.mem_cons_of_mem l hx, hl⟩
    · next hl =>
      cases hsc : DigAdapter.scanClose t with
      | mk c' r' =>
        simp only [hsc, Prod.mk.injEq] at h
        obtain ⟨-, h2⟩ := h
        have hrec := ih c' s r (by rw [hsc, h2])
        exact ⟨List.mem_cons_of_mem l hrec.1,
          fun x hx => List.mem_cons_of_mem l (hrec.2.1 x hx), hrec.2.2⟩

/-- The loop does nothing on an exhausted line list. -/
lemma qdkGo_nil (fuel : Nat) (kt : Option (Option Int)) (acc : List DNSKEYRecord) :
    DigAdapter.qdkGo fuel [] kt acc = .ok acc := by
  cases fuel <;> rfl

/-- Invariant run of the DNSKEY `+multi` loop: when no line of the input
carries a parsable `key id`/`key tag` comment, the Python `key_tag` local
always holds some already-produced record's final (formula) tag, so every
produced record except possibly the last gets its own formula tag, and the
last one gets its own formula tag or reuses an earlier record's tag
(the unterminated-`(` path, which consumes the rest of the input). -/
lemma qdkGo_no_comment (fuel : Nat) :
    ∀ (lines : List (List Char)) (kt : Option (Option Int))
      (acc recs : List DNSKEYRecord),
      (∀ l ∈ lines, DigAdapter.lineKeyTag l = none) →
      (kt = none ∨ ∃ q ∈ acc, kt = some (some q.key_tag)) →
      (∀ r ∈ acc, tagFromFormula r) →
      DigAdapter.qdkGo fuel lines kt acc = .ok recs →
      (∀ r ∈ recs.dropLast, tagFromFormula r) ∧
      (∀ r, recs.getLast? = some r →
        tagFromFormula r ∨ ∃ q ∈ recs.dropLast, r.key_tag = q.key_tag) := by
  induction fuel with
  | zero =>
    intro lines kt acc recs _ _ hacc h
    simp only [DigAdapter.qdkGo] at h
    injection h with h'
    subst h'
    exact ⟨fun r hr => hacc r (List.mem_of_mem_dropLast hr),
      fun r hr => Or.inl (hacc r (List.mem_of_getLast?_eq_some hr))⟩
  | succ fuel ih =>
    intro lines kt acc recs hlines hkt hacc h
    cases lines with
    | nil =>
      simp only [DigAdapter.qdkGo] at h
      injection h with h'
      subst h'
      exact ⟨fun r hr => hacc r (List.mem_of_mem_dropLast hr),
        fun r hr => Or.inl (hacc r (List.mem_of_getLast?_eq_some hr))⟩
    | cons line0 rest =>
      have hrest : ∀ l ∈ rest, DigAdapter.lineKeyTag l = none :=
        fun l hl => hlines l (List.mem_cons_of_mem line0 hl)
      simp only [DigAdapter.qdkGo] at h
      split at h
      · split at h
        · split at h
          · split at h
            · -- parenthesised block
              split at h
              · -- closing line found: its comment parses to nothing, so the
                -- record and the carried local both get the formula tag
                next collected stopLine rest' heq =>
                obtain ⟨hstop, hsub, hpar⟩ := scanClose_spec rest _ _ _ heq
                have hstopTag := hrest stopLine hstop
                have hkt1 : DigAdapter.commentKeyTag
                    ((pySplitOnceChar ')' stopLine).getD 1 []) = none := by
                  unfold DigAdapter.lineKeyTag at hstopTag
                  rw [if_pos hpar] at hstopTag
                  exact hstopTag
                rw [hkt1] at h
                refine ih rest' _ _ recs
                  (fun l hl => hrest l (hsub l hl)) ?_ ?_ h
                · exact Or.inr
                    ⟨_, List.mem_append_right _ (List.mem_singleton_self _), rfl⟩
                · exact forall_mem_append_singleton acc _ hacc ⟨_, rfl, rfl⟩
              · -- no closing line: the appended record reuses the carried
                -- tag and is the final record of the run
                split at h
                · exact Except.noConfusion h
                · rename_i ktv
                  rcases hkt with h1 | ⟨q, hq, h1⟩
                  · exact Option.noConfusion h1
                  · rw [Option.some.injEq] at h1
                    subst h1
                    rw [qdkGo_nil] at h
                    injection h with h'
                    subst h'
                    constructor
                    · rw [List.dropLast_concat]
                      exact hacc
                    · intro r hr
                      rw [List.getLast?_concat, Option.some.injEq] at hr
                      subst hr
                      refine Or.inr ⟨q, ?_, rfl⟩
                      rw [List.dropLast_concat]
                      exact hq
            · -- single-line record: formula tag, carried forward
              refine ih rest _ _ recs hrest ?_ ?_ h
              · exact Or.inr
                  ⟨_, List.mem_append_right _ (List.mem_singleton_self _), rfl⟩
              · exact forall_mem_append_singleton acc _ hacc ⟨_, rfl, rfl⟩
          all_goals exact Except.noConfusion h
        · exact ih rest kt acc recs hrest hkt hacc h
      · exact ih rest kt acc recs hrest hkt hacc h

/-- C8 amended: every DNSKEYRecord produced by `_parse_dnskey_records`
carries `key_tag = (flags + protocol + algorithm) % 65536`; for
`query_dnskey_with_keytag`, when no `key id`/`key tag` comment is parsed
anywhere in the tool output, every produced record except possibly the
last carries its own formula tag, and the last record either carries its
own formula tag or reuses the `key_tag` of an earlier record — the
loop-carried Python local, kept when the final record's parenthesised key
block is unterminated (see the counterexample). -/
theorem key_tag_formula :
    (∀ (resp : DNSResponse) (r : DNSKEYRecord),
      r ∈ DigAdapter.parse_dnskey_records resp → tagFromFormula r) ∧
    (∀ out : String,
      (∀ l ∈ pySplitChar '\n' out.data, DigAdapter.lineKeyTag l = none) →
      (∀ r ∈ (DigAdapter.qdkRecords out).dropLast, tagFromFormula r) ∧
      (∀ r, (DigAdapter.qdkRecords out).getLast? = some r →
        tagFromFormula r ∨
          ∃ q ∈ (DigAdapter.qdkRecords out).dropLast,
            r.key_tag = q.key_tag)) := by
  constructor
  · intro resp r hr
    unfold DigAdapter.parse_dnskey_records at hr
    rw [List.mem_filterMap] at hr
    obtain ⟨rec, -, hpar⟩ := hr
    unfold DigAdapter.parseDnskeyValue at hpar
    split at hpar
    · split at hpar
      · rw [Option.some.injEq] at hpar
        subst hpar
        exact ⟨_, rfl, rfl⟩
      all_goals exact Option.noConfusion hpar
    · exact Option.noConfusion hpar
  · intro out hno
    unfold DigAdapter.qdkRecords
    cases hq : DigAdapter.qdkParse out with
    | ok recs =>
      unfold DigAdapter.qdkParse at hq
      exact qdkGo_no_comment _ _ _ _ _ hno (Or.inl rfl) (by simp) hq
    | error e =>
      exact ⟨by simp, by simp⟩

/-- The record `_parse_dnskey_records` extracts from `dsRecGood1`. -/
def dnskeyRecParsed : DNSKEYRecord :=
  ⟨1, 8, DNSSECAlgorithm.DH, 11, "AA", 300⟩

/-- The record `query_dnskey_with_keytag` extracts from a single-line
DNSKEY answer. -/
def dnskeyRecSingleLine : DNSKEYRecord :=
  ⟨257, 3, DNSSECAlgorithm.RSASHA256, 268, "AAAA", 300⟩

/-- Witness for the amended C8: one record through each parser — for the
second part, the non-final record of the comment-free two-record output. -/
theorem key_tag_formula_witness :
    tagFromFormula dnskeyRecParsed ∧ tagFromFormula dnskeyRecSingleLine :=
  ⟨key_tag_formula.1 dsRespMixed dnskeyRecParsed (by decide),
   (key_tag_formula.2
      "a. 300 IN DNSKEY 257 3 8 AAAA\nb. 300 IN DNSKEY 256 3 8 ( y"
      (by decide)).1 dnskeyRecSingleLine (by decide)⟩
